import Mathlib

/-!
Shallow embedding of the track-resolution engine of `dbh-go-srv`
(Go sources under `internal/matcher`, `internal/database`, `internal/dab`).

Conventions of the embedding:
* Go strings become `String`; Go `float64` scores and sampling rates become
  `ℚ` (the constants involved, 0.85 / 0.94 / 0.95 / 1.0, are exact decimals);
  Go `int` becomes `Int`.
* SQL `NULL`-able TEXT columns become `Option String` (`none` = NULL).
* Fallible Go calls become `Except`-valued functions; injected collaborators
  (the catalog search, the MusicBrainz enrichment, the string-similarity
  metric from the `strutil` library) are parameters of the resolver, exactly
  as they are injected call targets in the Go code.
* Side effects are made explicit: `MatchTrack` additionally returns the list
  of network calls it issued, in order, and the registry upsert it scheduled
  (the Go code fires the upsert with `go database.UpsertMapping ...`).
-/

namespace DBH

/-- `models.Track` (internal/models, see part_008): the descriptor being
resolved.  `SourceType` embeds the Go field `Type` ("spotify", "youtube",
"csv", ...). -/
structure Track where
  Title : String
  Artist : String
  Album : String := ""
  ISRC : String := ""
  SourceID : String := ""
  SourceType : String := ""
deriving Repr, DecidableEq

/-- Audio-quality attributes of a catalog hit (`dab.DabTrack.AudioQuality`):
`maximumSampleRate` is a Go `float64`, `maximumBitDepth` a Go `int`. -/
structure DabAudioQuality where
  SamplingRate : ℚ := 0
  BitDepth : Int := 0
  IsHiRes : Bool := false
deriving Repr, DecidableEq

/-- `dab.DabTrack`: a catalog-side search hit.  Fields not consulted by the
matching logic (album title, cover, genre, duration, ...) are omitted. -/
structure DabTrack where
  ID : Int
  Title : String
  Artist : String
  AudioQuality : DabAudioQuality := {}
deriving Repr, DecidableEq

/-- `models.MatchResult` (part_008): embeds the descriptor, carries the
match status ("FOUND" | "NOT_FOUND"), the resolved DAB id, the winning raw
candidate and the fuzzy confidence.  Unset Go composite-literal fields get
their zero values, reproduced here as defaults. -/
structure MatchResult where
  Track : Track
  MatchStatus : String
  DabTrackID : Option String := none
  RawTrack : Option DabTrack := none
  Confidence : ℚ := 0
deriving Repr, DecidableEq

/-- `database.TrackMapping`: the payload of a registry upsert. -/
structure TrackMapping where
  DabID : String
  ISRC : String
  SpotifyID : String
  YoutubeID : String
deriving Repr, DecidableEq

/-- One row of the `track_registry` SQLite table (schema.sql).  The three
foreign-key columns are nullable TEXT, hence `Option String`;
`last_updated` is abstracted to a `Nat` timestamp. -/
structure RegistryRow where
  dab_id : String
  isrc : Option String := none
  spotify_id : Option String := none
  youtube_id : Option String := none
  last_updated : Nat := 0
deriving Repr, DecidableEq

/-- The registry table, in insertion order. -/
abbrev Registry := List RegistryRow

/-- The merge of one nullable column performed by `UpsertMapping`'s
`ON CONFLICT ... DO UPDATE SET col = COALESCE(NULLIF(col, ''), excluded.col)`
(database.go): keep the existing value when it is non-NULL and non-empty,
otherwise take the incoming bound value. -/
def mergeField (existing : Option String) (incoming : String) : Option String :=
  match existing with
  | some s => if s = "" then some incoming else some s
  | none => some incoming

/-- `database.UpsertMapping`: `nil` db is a no-op ("fail-safe"); otherwise a
single `INSERT ... ON CONFLICT(dab_id) DO UPDATE` that inserts a fresh row or
merges fields per `mergeField`, always refreshing `last_updated`. -/
def UpsertMapping (db : Option Registry) (m : TrackMapping) (now : Nat) :
    Option Registry :=
  match db with
  | none => none
  | some reg =>
    if reg.any (fun r => r.dab_id = m.DabID) then
      some (reg.map (fun r =>
        if r.dab_id = m.DabID then
          { r with
            isrc := mergeField r.isrc m.ISRC
            spotify_id := mergeField r.spotify_id m.SpotifyID
            youtube_id := mergeField r.youtube_id m.YoutubeID
            last_updated := now }
        else r))
    else
      some (reg ++ [{ dab_id := m.DabID, isrc := some m.ISRC,
                      spotify_id := some m.SpotifyID,
                      youtube_id := some m.YoutubeID, last_updated := now }])

/-- `database.GetDabIDFromSource` (database.go): keyed lookup on one of the
three indexed columns.  A `nil` db and an unsupported source type are errors;
`QueryRow(...).Scan` errors when no row matches.  SQL equality against a
bound string never matches a NULL column, hence `col r = some sourceID`. -/
def GetDabIDFromSource (db : Option Registry) (sourceType sourceID : String) :
    Except String String :=
  match db with
  | none => .error "no db"
  | some reg =>
    let col? : Option (RegistryRow → Option String) :=
      if sourceType = "spotify" then some (fun r => r.spotify_id)
      else if sourceType = "youtube" then some (fun r => r.youtube_id)
      else if sourceType = "isrc" then some (fun r => r.isrc)
      else none
    match col? with
    | none => .error "unsupported source type"
    | some col =>
      match reg.find? (fun r => col r = some sourceID) with
      | some r => .ok r.dab_id
      | none => .error "sql: no rows in result set"

/-- Go's `strings.TrimSpace`, modelled structurally on the character list
(drop whitespace from both ends). -/
def goTrimSpace (s : String) : String :=
  ⟨((s.data.dropWhile Char.isWhitespace).reverse.dropWhile
      Char.isWhitespace).reverse⟩

/-- Go's `strings.ToLower`, modelled structurally on the character list. -/
def goToLower (s : String) : String :=
  ⟨s.data.map Char.toLower⟩

/-- `matcher.isValidISRC`, per-character check: positions 0..4 must be
uppercase letters `A`..`Z` (the Go code splits this into `i < 2` and
`2 ≤ i < 5`, both with the same test), positions 5..11 digits `0`..`9`. -/
def isrcCharOK (i : Nat) (c : Char) : Bool :=
  if i < 2 then decide ('A' ≤ c ∧ c ≤ 'Z')
  else if i < 5 then decide ('A' ≤ c ∧ c ≤ 'Z')
  else decide ('0' ≤ c ∧ c ≤ '9')

/-- `matcher.isValidISRC`: exactly 12 characters, each passing
`isrcCharOK` at its index. -/
def isValidISRC (s : String) : Bool :=
  s.length = 12 && s.toList.enum.all (fun p => isrcCharOK p.1 p.2)

/-- `matcher.iif`: Go's conditional-expression helper. -/
def iif (condition : Bool) (a b : String) : String :=
  if condition then a else b

/-- The fuzzy acceptance threshold of `MatchTrack`: `0.85`, raised to
`0.95` when `mode == "strict"`. -/
def threshold (mode : String) : ℚ :=
  if mode = "strict" then 0.95 else 0.85

/-- The score the loop body of `MatchTrack` assigns to one candidate:
the injected similarity of the lower-cased `artist title` pair, forced to
`1.0` on the ISRC path (`if useISRC { score = 1.0 }`). -/
def candScore (sim : String → String → ℚ) (target : String) (useISRC : Bool)
    (cand : DabTrack) : ℚ :=
  if useISRC then 1 else sim target (goToLower (cand.Artist ++ " " ++ cand.Title))

/-- One iteration of `MatchTrack`'s candidate loop: accept `cand` as the new
best exactly when `score >= threshold && score > highestScore`. -/
def stepCand (sim : String → String → ℚ) (target : String) (th : ℚ)
    (useISRC : Bool) (acc : Option DabTrack × ℚ) (cand : DabTrack) :
    Option DabTrack × ℚ :=
  let score := candScore sim target useISRC cand
  if th ≤ score ∧ acc.2 < score then (some cand, score) else acc

/-- `MatchTrack`'s candidate loop: fold `stepCand` over the results starting
from `bestMatch = nil, highestScore = 0`. -/
def bestOf (sim : String → String → ℚ) (target : String) (th : ℚ)
    (useISRC : Bool) (results : List DabTrack) : Option DabTrack × ℚ :=
  results.foldl (stepCand sim target th useISRC) (none, 0)

/-- The body of `matcher.findBestQuality`'s loop: replace `best` when the
candidate has a strictly higher sampling rate, or an equal sampling rate and
a strictly higher bit depth. -/
def betterQuality (best t : DabTrack) : DabTrack :=
  if best.AudioQuality.SamplingRate < t.AudioQuality.SamplingRate then t
  else if t.AudioQuality.SamplingRate = best.AudioQuality.SamplingRate ∧
      best.AudioQuality.BitDepth < t.AudioQuality.BitDepth then t
  else best

/-- `matcher.findBestQuality`: start from `tracks[0]` and scan the whole
slice (Go panics on an empty slice; here that case is `none`). -/
def findBestQuality (tracks : List DabTrack) : Option DabTrack :=
  match tracks with
  | [] => none
  | t0 :: _ => some (tracks.foldl betterQuality t0)

/-- A network call issued during one resolution, recorded in order. -/
inductive NetCall where
  | search (query : String)
  | mbLookup (artist title : String)
deriving Repr, DecidableEq

/-- The injected collaborators of `MatchTrack`: the catalog search client
(`dab.Client.Search`), the MusicBrainz enrichment
(`matcher.GetISRCFromMetadata`, composed with the network), and the
`strutil.Similarity`/Jaro-Winkler metric. -/
structure MatchEnv where
  search : String → List DabTrack
  mb : String → String → String
  sim : String → String → ℚ

/-- What one call to `MatchTrack` produces: the `MatchResult` returned to the
caller, the network calls issued, and the registry upsert scheduled with
`go database.UpsertMapping ...` (if any). -/
structure MatchOutcome where
  result : MatchResult
  calls : List NetCall
  upsert : Option TrackMapping
deriving Repr, DecidableEq

/-- The combined condition `err == nil && cachedID != ""` guarding both cache
checks in `MatchTrack` (a `nil` db makes `GetDabIDFromSource` error, so the
extra `db != nil` wrapper around step 1 does not change the outcome). -/
def cacheLookup (db : Option Registry) (sourceType sourceID : String) :
    Option String :=
  match GetDabIDFromSource db sourceType sourceID with
  | .ok s => if s = "" then none else some s
  | .error _ => none

/-- The query string sent to the search client by `MatchTrack`:
`TrimSpace(t.Artist + " " + t.Title)`, overridden by the raw ISRC when the
descriptor's ISRC is valid. -/
def buildQuery (t : Track) : String :=
  if isValidISRC t.ISRC then t.ISRC
  else goTrimSpace (t.Artist ++ " " ++ t.Title)

/-- Steps 3-5 of `matcher.MatchTrack`: pick the query (the ISRC itself when
valid, else `TrimSpace(artist + " " + title)`), search once, return
NOT_FOUND on zero results, otherwise run the scoring loop; on a winner,
schedule the registry upsert and return FOUND with the loop's confidence. -/
def searchPhase (env : MatchEnv) (t : Track) (mode : String) : MatchOutcome :=
  let useISRC := isValidISRC t.ISRC
  let query := buildQuery t
  let results := env.search query
  if results.length = 0 then
    ⟨{ Track := t, MatchStatus := "NOT_FOUND" }, [.search query], none⟩
  else
    let target := goToLower (t.Artist ++ " " ++ t.Title)
    let best := bestOf env.sim target (threshold mode) useISRC results
    match best.1 with
    | some bm =>
      let idStr := toString bm.ID
      ⟨{ Track := t, MatchStatus := "FOUND", DabTrackID := some idStr,
         RawTrack := some bm, Confidence := best.2 },
       [.search query],
       some { DabID := idStr, ISRC := t.ISRC,
              SpotifyID := iif (t.SourceType == "spotify") t.SourceID "",
              YoutubeID := iif (t.SourceType == "youtube") t.SourceID "" }⟩
    | none => ⟨{ Track := t, MatchStatus := "NOT_FOUND" }, [.search query], none⟩

/-- `matcher.MatchTrack`: (1) registry check by (type, sourceId); (2) for a
YouTube descriptor without ISRC, MusicBrainz enrichment and, on a discovered
ISRC, a second registry check keyed "isrc"; (3-5) the search/score phase.
Both cache-hit returns leave `Confidence` at its zero value. -/
def MatchTrack (env : MatchEnv) (db : Option Registry) (t : Track)
    (mode : String) : MatchOutcome :=
  match cacheLookup db t.SourceType t.SourceID with
  | some cachedID =>
    ⟨{ Track := t, MatchStatus := "FOUND", DabTrackID := some cachedID }, [], none⟩
  | none =>
    if t.SourceType = "youtube" ∧ t.ISRC = "" then
      let mbISRC := env.mb t.Artist t.Title
      if mbISRC = "" then
        let o := searchPhase env t mode
        ⟨o.result, NetCall.mbLookup t.Artist t.Title :: o.calls, o.upsert⟩
      else
        let t2 : Track := { t with ISRC := mbISRC }
        match cacheLookup db "isrc" mbISRC with
        | some cachedID =>
          ⟨{ Track := t2, MatchStatus := "FOUND", DabTrackID := some cachedID },
           [NetCall.mbLookup t.Artist t.Title], none⟩
        | none =>
          let o := searchPhase env t2 mode
          ⟨o.result, NetCall.mbLookup t.Artist t.Title :: o.calls, o.upsert⟩
    else searchPhase env t mode

/-- `dab.Client.Search` (Qobuz-first variant, part_004/part_006): try the
primary Qobuz catalog; on success with at least one track return those,
otherwise fall back to the secondary DAB catalog.  The Boolean records
whether the DAB fallback was queried. -/
def ClientSearch (searchQobuz : String → Except Unit (List DabTrack))
    (searchDab : String → List DabTrack) (query : String) :
    List DabTrack × Bool :=
  match searchQobuz query with
  | .ok qTracks =>
    if qTracks.length > 0 then (qTracks, false) else (searchDab query, true)
  | .error _ => (searchDab query, true)

/-- One recording of a MusicBrainz search response
(`matcher.MusicBrainzResponse`). -/
structure MBRecording where
  id : String
  isrcs : List String
  score : Int
deriving Repr, DecidableEq

/-- `matcher.MusicBrainzResponse`, simplified for ISRC extraction. -/
structure MusicBrainzResponse where
  recordings : List MBRecording
deriving Repr, DecidableEq

/-- The result-scanning loop of `GetISRCFromMetadata`: return the first ISRC
of the first recording with `Score > 80` and a non-empty ISRC list. -/
def firstAcceptedISRC : List MBRecording → String
  | [] => ""
  | r :: rest =>
    if 80 < r.score ∧ r.isrcs.length > 0 then r.isrcs.headD ""
    else firstAcceptedISRC rest

/-- `matcher.GetISRCFromMetadata`, downstream of the network: a request
error, non-200 status or JSON decode error yields `""`; a decoded response
is scanned by `firstAcceptedISRC`. -/
def GetISRCFromMetadata (resp : Except Unit MusicBrainzResponse) : String :=
  match resp with
  | .error _ => ""
  | .ok res => firstAcceptedISRC res.recordings

/-! ### Concrete fixtures used by the witnesses and counterexamples -/

/-- An environment whose collaborators all fail soft: empty search results,
no MusicBrainz hit, zero similarity. -/
def envEmpty : MatchEnv :=
  ⟨fun _ => [], fun _ _ => "", fun _ _ => 0⟩

/-- A registry holding one row that maps Spotify id "SP1" to DAB id "42". -/
def regCached : Registry :=
  [{ dab_id := "42", spotify_id := some "SP1" }]

/-- A Spotify descriptor whose (platform, sourceId) is cached in
`regCached`. -/
def trackCached : Track :=
  ⟨"T", "A", "", "", "SP1", "spotify"⟩

/-- A generic single search candidate with DAB id 7. -/
def candR : DabTrack :=
  ⟨7, "Song", "Band", {}⟩

/-- An environment whose search always returns the single candidate
`candR` and whose similarity metric is constantly 0. -/
def envOneCand : MatchEnv :=
  ⟨fun _ => [candR], fun _ _ => "", fun _ _ => 0⟩

/-- A Spotify descriptor carrying the spec's example ISRC
"USUM71921131" (which has the digit 7 at position 4). -/
def trackSpecISRC : Track :=
  ⟨"Song", "Band", "", "USUM71921131", "s1", "spotify"⟩

/-- A Spotify descriptor carrying an ISRC that satisfies `isValidISRC`
(positions 0-4 uppercase letters, 5-11 digits). -/
def trackValidISRC : Track :=
  ⟨"Song", "Band", "", "USUMA1921131", "s1", "spotify"⟩

/-- A Spotify descriptor with no ISRC, for the fuzzy path. -/
def trackFuzzy : Track :=
  ⟨"Song", "Band", "", "", "s1", "spotify"⟩

/-- Environment: one candidate, similarity constantly 0.85. -/
def envSim085 : MatchEnv :=
  ⟨fun _ => [candR], fun _ _ => "", fun _ _ => 0.85⟩

/-- Environment: one candidate, similarity constantly 0.94. -/
def envSim094 : MatchEnv :=
  ⟨fun _ => [candR], fun _ _ => "", fun _ _ => 0.94⟩

/-- A descriptor whose title carries a parenthetical suffix, for the
clean-title/retry question. -/
def trackRemaster : Track :=
  ⟨"Blinding Lights (Remastered)", "The Weeknd", "", "", "x", "spotify"⟩

/-- A low-quality candidate: DAB id 1, 44.1 kHz / 16 bit. -/
def candLow : DabTrack :=
  ⟨1, "Song", "Band", ⟨44.1, 16, false⟩⟩

/-- A high-quality candidate: DAB id 2, 192 kHz / 24 bit. -/
def candHigh : DabTrack :=
  ⟨2, "Song", "Band", ⟨192, 24, true⟩⟩

/-- Environment whose search returns the low-quality candidate first and the
high-quality one second. -/
def envQuality : MatchEnv :=
  ⟨fun _ => [candLow, candHigh], fun _ _ => "", fun _ _ => 0⟩

/-- A MusicBrainz top result with a low relevance score and no ISRC. -/
def recLowScore : MBRecording :=
  ⟨"r1", [], 10⟩

/-- A MusicBrainz second result with a high score carrying one ISRC. -/
def recHighScore : MBRecording :=
  ⟨"r2", ["QMABC2512345"], 90⟩

/-! ### Evaluation lemmas about the embedded definitions -/

theorem threshold_lenient : threshold "lenient" = 0.85 := rfl

theorem threshold_strict : threshold "strict" = 0.95 := rfl

theorem threshold_le_one (mode : String) : threshold mode ≤ 1 := by
  unfold threshold
  split <;> norm_num

theorem threshold_pos (mode : String) : 0 < threshold mode := by
  unfold threshold
  split <;> norm_num

/-- A registry hit on (type, sourceId) short-circuits everything: FOUND with
the cached id, no candidate, zero network calls, no upsert, confidence 0. -/
theorem matchTrack_cacheHit (env : MatchEnv) (db : Option Registry) (t : Track)
    (mode cachedID : String)
    (h : cacheLookup db t.SourceType t.SourceID = some cachedID) :
    MatchTrack env db t mode =
      ⟨{ Track := t, MatchStatus := "FOUND", DabTrackID := some cachedID },
       [], none⟩ := by
  unfold MatchTrack
  rw [h]

/-- With a cache miss and no enrichment trigger, `MatchTrack` is just the
search phase. -/
theorem matchTrack_plain (env : MatchEnv) (db : Option Registry) (t : Track)
    (mode : String)
    (h : cacheLookup db t.SourceType t.SourceID = none)
    (h2 : ¬(t.SourceType = "youtube" ∧ t.ISRC = "")) :
    MatchTrack env db t mode = searchPhase env t mode := by
  unfold MatchTrack
  rw [h]
  simp [h2]

/-- With a cache miss, the enrichment trigger met, and MusicBrainz returning
no ISRC, `MatchTrack` is the search phase plus the recorded MusicBrainz
lookup. -/
theorem matchTrack_enrichEmpty (env : MatchEnv) (db : Option Registry)
    (t : Track) (mode : String)
    (h : cacheLookup db t.SourceType t.SourceID = none)
    (h2 : t.SourceType = "youtube") (h3 : t.ISRC = "")
    (h4 : env.mb t.Artist t.Title = "") :
    MatchTrack env db t mode =
      ⟨(searchPhase env t mode).result,
       NetCall.mbLookup t.Artist t.Title :: (searchPhase env t mode).calls,
       (searchPhase env t mode).upsert⟩ := by
  unfold MatchTrack
  rw [h]
  simp [h2, h3, h4]

/-- Zero search results end the search phase in NOT_FOUND after exactly one
search call. -/
theorem searchPhase_empty (env : MatchEnv) (t : Track) (mode : String)
    (h : env.search (buildQuery t) = []) :
    searchPhase env t mode =
      ⟨{ Track := t, MatchStatus := "NOT_FOUND" },
       [.search (buildQuery t)], none⟩ := by
  simp [searchPhase, h]

/-- A winning candidate in the scoring loop yields FOUND with the loop's
score as confidence and schedules the registry upsert. -/
theorem searchPhase_found (env : MatchEnv) (t : Track) (mode : String)
    (bm : DabTrack) (sc : ℚ)
    (h : env.search (buildQuery t) ≠ [])
    (hb : bestOf env.sim (goToLower (t.Artist ++ " " ++ t.Title))
        (threshold mode) (isValidISRC t.ISRC) (env.search (buildQuery t)) =
        (some bm, sc)) :
    searchPhase env t mode =
      ⟨{ Track := t, MatchStatus := "FOUND", DabTrackID := some (toString bm.ID),
         RawTrack := some bm, Confidence := sc },
       [.search (buildQuery t)],
       some { DabID := toString bm.ID, ISRC := t.ISRC,
              SpotifyID := iif (t.SourceType == "spotify") t.SourceID "",
              YoutubeID := iif (t.SourceType == "youtube") t.SourceID "" }⟩ := by
  unfold searchPhase
  have hlen : (env.search (buildQuery t)).length ≠ 0 := by
    simpa [List.length_eq_zero] using h
  simp only [hlen, if_neg hlen, hb]
  simp

/-- No candidate clears the loop: NOT_FOUND after the single search call. -/
theorem searchPhase_notFound (env : MatchEnv) (t : Track) (mode : String)
    (sc : ℚ)
    (hb : bestOf env.sim (goToLower (t.Artist ++ " " ++ t.Title))
        (threshold mode) (isValidISRC t.ISRC) (env.search (buildQuery t)) =
        (none, sc)) :
    searchPhase env t mode =
      ⟨{ Track := t, MatchStatus := "NOT_FOUND" },
       [.search (buildQuery t)], none⟩ := by
  unfold searchPhase
  by_cases h : (env.search (buildQuery t)).length = 0
  · simp [h]
  · simp only [h, if_neg h, hb]
    simp

/-- Once the loop holds a best match, it never drops it. -/
theorem foldl_stepCand_isSome (sim : String → String → ℚ) (target : String)
    (th : ℚ) (u : Bool) (l : List DabTrack) (acc : Option DabTrack × ℚ)
    (h : acc.1.isSome) :
    (l.foldl (stepCand sim target th u) acc).1.isSome := by
  induction l generalizing acc with
  | nil => exact h
  | cons c rest ih =>
    simp only [List.foldl_cons]
    apply ih
    unfold stepCand
    dsimp only
    split
    · rfl
    · exact h

/-- On the ISRC path every candidate scores 1.0, so the loop keeps the first
candidate with confidence 1.0 (later ties never replace it). -/
theorem bestOf_isrc (sim : String → String → ℚ) (target : String)
    (mode : String) (c : DabTrack) (rest : List DabTrack) :
    bestOf sim target (threshold mode) true (c :: rest) = (some c, 1) := by
  unfold bestOf
  simp only [List.foldl_cons]
  have h1 : stepCand sim target (threshold mode) true (none, 0) c = (some c, 1) := by
    unfold stepCand candScore
    simp [threshold_le_one mode]
  rw [h1]
  induction rest with
  | nil => rfl
  | cons d rest2 ih =>
    simp only [List.foldl_cons]
    have h2 : stepCand sim target (threshold mode) true (some c, 1) d = (some c, 1) := by
      unfold stepCand candScore
      simp
    rw [h2]
    exact ih

/-- The loop ends with a best match exactly when some candidate's score
clears the (positive) threshold. -/
theorem bestOf_isSome_iff (sim : String → String → ℚ) (target : String)
    (th : ℚ) (u : Bool) (l : List DabTrack) (hth : 0 < th) :
    (bestOf sim target th u l).1.isSome ↔
      ∃ c ∈ l, th ≤ candScore sim target u c := by
  unfold bestOf
  induction l with
  | nil => simp
  | cons c rest ih =>
    simp only [List.foldl_cons]
    by_cases h : th ≤ candScore sim target u c
    · have h1 : stepCand sim target th u (none, 0) c =
          (some c, candScore sim target u c) := by
        unfold stepCand
        have : (0 : ℚ) < candScore sim target u c := lt_of_lt_of_le hth h
        simp [h, this]
      rw [h1]
      constructor
      · intro _
        exact ⟨c, by simp, h⟩
      · intro _
        exact foldl_stepCand_isSome sim target th u rest _ rfl
    · have h1 : stepCand sim target th u (none, 0) c = (none, 0) := by
        unfold stepCand
        simp only [ite_eq_right_iff]
        intro hc
        exact absurd hc.1 h
      rw [h1]
      rw [ih]
      constructor
      · intro ⟨d, hd, hle⟩
        exact ⟨d, by simp [hd], hle⟩
      · intro ⟨d, hd, hle⟩
        rcases List.mem_cons.mp hd with rfl | hd2
        · exact absurd hle h
        · exact ⟨d, hd2, hle⟩

/-- Enrichment discovered an ISRC that hits the registry: FOUND with the
cached id, the descriptor enriched, only the MusicBrainz call issued. -/
theorem matchTrack_enrichHit (env : MatchEnv) (db : Option Registry)
    (t : Track) (mode cachedID : String)
    (h : cacheLookup db t.SourceType t.SourceID = none)
    (h2 : t.SourceType = "youtube") (h3 : t.ISRC = "")
    (h4 : env.mb t.Artist t.Title ≠ "")
    (h5 : cacheLookup db "isrc" (env.mb t.Artist t.Title) = some cachedID) :
    MatchTrack env db t mode =
      ⟨{ Track := { t with ISRC := env.mb t.Artist t.Title },
         MatchStatus := "FOUND", DabTrackID := some cachedID },
       [NetCall.mbLookup t.Artist t.Title], none⟩ := by
  unfold MatchTrack
  rw [h]
  simp [h2, h3, h4, h5]

/-- Enrichment discovered an ISRC that still misses the registry: the search
phase runs on the enriched descriptor, after the MusicBrainz call. -/
theorem matchTrack_enrichMiss (env : MatchEnv) (db : Option Registry)
    (t : Track) (mode : String)
    (h : cacheLookup db t.SourceType t.SourceID = none)
    (h2 : t.SourceType = "youtube") (h3 : t.ISRC = "")
    (h4 : env.mb t.Artist t.Title ≠ "")
    (h5 : cacheLookup db "isrc" (env.mb t.Artist t.Title) = none) :
    MatchTrack env db t mode =
      ⟨(searchPhase env { t with ISRC := env.mb t.Artist t.Title } mode).result,
       NetCall.mbLookup t.Artist t.Title ::
         (searchPhase env { t with ISRC := env.mb t.Artist t.Title } mode).calls,
       (searchPhase env { t with ISRC := env.mb t.Artist t.Title } mode).upsert⟩ := by
  unfold MatchTrack
  rw [h]
  simp [h2, h3, h4, h5]

/-- The search phase only ever reports FOUND or NOT_FOUND. -/
theorem searchPhase_status (env : MatchEnv) (t : Track) (mode : String) :
    (searchPhase env t mode).result.MatchStatus = "FOUND" ∨
      (searchPhase env t mode).result.MatchStatus = "NOT_FOUND" := by
  by_cases hemp : env.search (buildQuery t) = []
  · rw [searchPhase_empty env t mode hemp]
    right
    rfl
  · rcases hbo : bestOf env.sim (goToLower (t.Artist ++ " " ++ t.Title))
        (threshold mode) (isValidISRC t.ISRC) (env.search (buildQuery t)) with ⟨b, sc⟩
    cases b with
    | some bm =>
      rw [searchPhase_found env t mode bm sc hemp hbo]
      left
      rfl
    | none =>
      rw [searchPhase_notFound env t mode sc hbo]
      right
      rfl

/-- FOUND out of the search phase is exactly "some candidate cleared the
threshold" (the loop's `bestMatch` ended non-nil). -/
theorem searchPhase_found_iff (env : MatchEnv) (t : Track) (mode : String)
    (hemp : env.search (buildQuery t) ≠ []) :
    (searchPhase env t mode).result.MatchStatus = "FOUND" ↔
      (bestOf env.sim (goToLower (t.Artist ++ " " ++ t.Title))
        (threshold mode) (isValidISRC t.ISRC)
        (env.search (buildQuery t))).1.isSome := by
  rcases hbo : bestOf env.sim (goToLower (t.Artist ++ " " ++ t.Title))
      (threshold mode) (isValidISRC t.ISRC) (env.search (buildQuery t)) with ⟨b, sc⟩
  cases b with
  | some bm =>
    rw [searchPhase_found env t mode bm sc hemp hbo]
    simp
  | none =>
    rw [searchPhase_notFound env t mode sc hbo]
    simp

/-- An absent db (`nil`) behaves exactly like an empty registry. -/
theorem cacheLookup_noDb (sourceType sourceID : String) :
    cacheLookup none sourceType sourceID = none := rfl

/-- An empty registry never produces a cache hit. -/
theorem cacheLookup_emptyReg (sourceType sourceID : String) :
    cacheLookup (some []) sourceType sourceID = none := by
  unfold cacheLookup GetDabIDFromSource
  dsimp only
  split_ifs <;> simp [List.find?]

/-- A `nil` db (cache unavailable) yields the same outcome as an empty
registry: every lookup degrades to a miss. -/
theorem matchTrack_noDb (env : MatchEnv) (t : Track) (mode : String) :
    MatchTrack env none t mode = MatchTrack env (some []) t mode := by
  unfold MatchTrack
  simp only [cacheLookup_noDb, cacheLookup_emptyReg]

/-- `MatchTrack` only ever reports FOUND or NOT_FOUND, for every descriptor,
mode, registry state and collaborator behavior. -/
theorem matchTrack_status (env : MatchEnv) (db : Option Registry) (t : Track)
    (mode : String) :
    (MatchTrack env db t mode).result.MatchStatus = "FOUND" ∨
      (MatchTrack env db t mode).result.MatchStatus = "NOT_FOUND" := by
  cases hcl : cacheLookup db t.SourceType t.SourceID with
  | some id =>
    rw [matchTrack_cacheHit env db t mode id hcl]
    left
    rfl
  | none =>
    by_cases hyt : t.SourceType = "youtube" ∧ t.ISRC = ""
    · by_cases hmb : env.mb t.Artist t.Title = ""
      · rw [matchTrack_enrichEmpty env db t mode hcl hyt.1 hyt.2 hmb]
        exact searchPhase_status env t mode
      · cases hcl2 : cacheLookup db "isrc" (env.mb t.Artist t.Title) with
        | some id2 =>
          rw [matchTrack_enrichHit env db t mode id2 hcl hyt.1 hyt.2 hmb hcl2]
          left
          rfl
        | none =>
          rw [matchTrack_enrichMiss env db t mode hcl hyt.1 hyt.2 hmb hcl2]
          exact searchPhase_status env { t with ISRC := env.mb t.Artist t.Title } mode
    · rw [matchTrack_plain env db t mode hcl hyt]
      exact searchPhase_status env t mode

/-- A valid ISRC is in particular non-empty (it has 12 characters). -/
theorem isValidISRC_ne_empty (s : String) (h : isValidISRC s = true) :
    s ≠ "" := by
  intro he
  subst he
  exact absurd h (by decide)

/-- The scan computes, in one equation, the first ISRC of the FIRST
recording (in list order, via `List.find?`) whose score exceeds 80 and
which carries at least one ISRC, and "" when no recording qualifies. -/
theorem firstAcceptedISRC_eq_find (recs : List MBRecording) :
    firstAcceptedISRC recs =
      match recs.find?
          (fun r => decide (80 < r.score) && decide (0 < r.isrcs.length)) with
      | some r => r.isrcs.headD ""
      | none => "" := by
  induction recs with
  | nil => rfl
  | cons r rest ih =>
    unfold firstAcceptedISRC
    by_cases hc : 80 < r.score ∧ r.isrcs.length > 0
    · have hp : (decide (80 < r.score) && decide (0 < r.isrcs.length)) = true := by
        simp [hc.1, hc.2]
      rw [if_pos hc]
      simp [List.find?_cons, hp]
    · have hp : (decide (80 < r.score) && decide (0 < r.isrcs.length)) = false := by
        cases h8 : decide (80 < r.score) with
        | false => simp
        | true =>
          cases hlen : decide (0 < r.isrcs.length) with
          | false => simp [hlen]
          | true =>
            exact absurd ⟨of_decide_eq_true h8, of_decide_eq_true hlen⟩ hc
      rw [if_neg hc, ih]
      simp [List.find?_cons, hp]

/-- Scan order, explicitly: when every recording of a prefix is rejected
(score at most 80 or no ISRC) and the next recording qualifies, the scan
returns THAT recording's first ISRC, whatever follows it. -/
theorem firstAcceptedISRC_first (pre : List MBRecording) (r : MBRecording)
    (post : List MBRecording)
    (hpre : ∀ d ∈ pre, ¬(80 < d.score ∧ d.isrcs ≠ []))
    (hr1 : 80 < r.score) (hr2 : r.isrcs ≠ []) :
    firstAcceptedISRC (pre ++ r :: post) = r.isrcs.headD "" := by
  induction pre with
  | nil =>
    simp only [List.nil_append]
    unfold firstAcceptedISRC
    rw [if_pos ⟨hr1, by simpa [List.length_pos] using hr2⟩]
  | cons d rest ih =>
    simp only [List.cons_append]
    unfold firstAcceptedISRC
    rw [if_neg]
    · exact ih (fun e he => hpre e (List.mem_cons_of_mem d he))
    · have hd := hpre d (List.mem_cons_self d rest)
      simpa [List.length_pos] using hd

/-! ### Claim theorems -/

/-- Claim C1 (amended): for every descriptor whose (sourcePlatform,
sourceId) pair has a registry row with a non-empty target id, `MatchTrack`
returns FOUND with that cached id, no candidate attached and zero network
calls — but the `Confidence` field is left at its zero value 0.0, not set
to 1.0 as the claim states. -/
theorem C1_cache_precedence (env : MatchEnv) (db : Option Registry)
    (t : Track) (mode cachedID : String)
    (h1 : GetDabIDFromSource db t.SourceType t.SourceID = Except.ok cachedID)
    (h2 : cachedID ≠ "") :
    MatchTrack env db t mode =
      ⟨{ Track := t, MatchStatus := "FOUND", DabTrackID := some cachedID },
       [], none⟩ := by
  apply matchTrack_cacheHit
  unfold cacheLookup
  rw [h1]
  simp [h2]

/-- Claim C1, witness: a concrete cached Spotify descriptor resolved by
`C1_cache_precedence` with both hypotheses discharged by evaluation. -/
theorem C1_cache_precedence_witness :
    GetDabIDFromSource (some regCached) trackCached.SourceType
        trackCached.SourceID = Except.ok "42" ∧
    MatchTrack envEmpty (some regCached) trackCached "lenient" =
      ⟨{ Track := trackCached, MatchStatus := "FOUND", DabTrackID := some "42" },
       [], none⟩ :=
  ⟨rfl,
   C1_cache_precedence envEmpty (some regCached) trackCached "lenient" "42"
     rfl (by decide)⟩

/-- Claim C1, counterexample to the claimed confidence 1.0: on a concrete
registry hit the returned status is FOUND with zero network calls, but the
confidence is not 1.0 (the code never sets the field on the cache path). -/
theorem C1_cache_precedence_cex :
    (MatchTrack envEmpty (some regCached) trackCached "lenient").calls = [] ∧
    (MatchTrack envEmpty (some regCached) trackCached "lenient").result.MatchStatus
      = "FOUND" ∧
    (MatchTrack envEmpty (some regCached) trackCached "lenient").result.Confidence
      ≠ 1 := by
  have h := matchTrack_cacheHit envEmpty (some regCached) trackCached "lenient"
    "42" (by decide)
  rw [h]
  refine ⟨rfl, rfl, ?_⟩
  norm_num

/-- Claim C2: confirmed — `UpsertMapping` inserts a fresh row on first
write, and a second upsert to the same target id merges per field with
first-writer-wins (the existing non-empty value is kept; the incoming value
is taken only when the existing one is empty), and `last_updated` is
refreshed on every upsert. -/
theorem C2_merge_union (m1 m2 : TrackMapping) (t1 t2 : Nat)
    (h : m2.DabID = m1.DabID) :
    UpsertMapping (some []) m1 t1 =
      some [⟨m1.DabID, some m1.ISRC, some m1.SpotifyID, some m1.YoutubeID, t1⟩] ∧
    UpsertMapping (UpsertMapping (some []) m1 t1) m2 t2 =
      some [⟨m1.DabID,
             some (if m1.ISRC = "" then m2.ISRC else m1.ISRC),
             some (if m1.SpotifyID = "" then m2.SpotifyID else m1.SpotifyID),
             some (if m1.YoutubeID = "" then m2.YoutubeID else m1.YoutubeID),
             t2⟩] := by
  constructor
  · simp [UpsertMapping]
  · simp [UpsertMapping, mergeField, h]
    split_ifs <;> simp

/-- Claim C2, witness: the spec's own example — upserting
(targetId 5, isrc empty, spotify "X") then (targetId 5, isrc
"ABCD12345678", spotify empty) yields one row carrying both the ISRC and
the Spotify id, with the timestamp of the second upsert. -/
theorem C2_merge_union_witness :
    UpsertMapping (UpsertMapping (some []) ⟨"5", "", "X", ""⟩ 0)
        ⟨"5", "ABCD12345678", "", ""⟩ 1 =
      some [⟨"5", some "ABCD12345678", some "X", some "", 1⟩] := by
  have h := (C2_merge_union ⟨"5", "", "X", ""⟩ ⟨"5", "ABCD12345678", "", ""⟩
    0 1 rfl).2
  exact h.trans (by decide)

/-- Claim C3 (amended): for a descriptor whose ISRC passes `isValidISRC`
(12 characters, positions 0-4 uppercase letters, positions 5-11 digits) and
a search stub returning exactly one candidate for that ISRC, `MatchTrack`
returns FOUND with confidence exactly 1.0 and that candidate's id,
independent of the injected string-similarity metric.  The claim's example
ISRC "USUM71921131" does not pass this validation (position 4 is the digit
7), so it takes the fuzzy path instead — see the counterexample. -/
theorem C3_isrc_exactness (env : MatchEnv) (t : Track) (mode : String)
    (cand : DabTrack)
    (h1 : isValidISRC t.ISRC = true)
    (h2 : env.search t.ISRC = [cand]) :
    (MatchTrack env none t mode).result.MatchStatus = "FOUND" ∧
    (MatchTrack env none t mode).result.Confidence = 1 ∧
    (MatchTrack env none t mode).result.DabTrackID = some (toString cand.ID) := by
  have hne : t.ISRC ≠ "" := isValidISRC_ne_empty t.ISRC h1
  have hyt : ¬(t.SourceType = "youtube" ∧ t.ISRC = "") := fun hc => hne hc.2
  have hq : buildQuery t = t.ISRC := by
    unfold buildQuery
    rw [h1]
    simp
  have hres : env.search (buildQuery t) = [cand] := by
    rw [hq]
    exact h2
  have hb : bestOf env.sim (goToLower (t.Artist ++ " " ++ t.Title))
      (threshold mode) (isValidISRC t.ISRC) (env.search (buildQuery t)) =
      (some cand, 1) := by
    rw [hres, h1]
    exact bestOf_isrc env.sim _ mode cand []
  have hf := searchPhase_found env t mode cand 1 (by rw [hres]; simp) hb
  rw [matchTrack_plain env none t mode rfl hyt, hf]
  exact ⟨rfl, rfl, rfl⟩

/-- Claim C3, witness: the valid ISRC "USUMA1921131" with a one-candidate
stub and a constantly-zero similarity metric still yields FOUND with
confidence exactly 1.0. -/
theorem C3_isrc_exactness_witness :
    isValidISRC trackValidISRC.ISRC = true ∧
    (MatchTrack envOneCand none trackValidISRC "lenient").result.MatchStatus
      = "FOUND" ∧
    (MatchTrack envOneCand none trackValidISRC "lenient").result.Confidence
      = 1 :=
  ⟨by decide,
   (C3_isrc_exactness envOneCand trackValidISRC "lenient" candR
     (by decide) rfl).1,
   (C3_isrc_exactness envOneCand trackValidISRC "lenient" candR
     (by decide) rfl).2.1⟩

/-- Claim C3, counterexample: the claim's ISRC "USUM71921131" fails
`isValidISRC` (position 4 holds the digit 7, but positions 0-4 must be
letters), so with a one-candidate stub and zero similarity the resolver
takes the fuzzy path and returns NOT_FOUND — not FOUND with confidence
1.0. -/
theorem C3_isrc_exactness_cex :
    isValidISRC trackSpecISRC.ISRC = false ∧
    envOneCand.search (buildQuery trackSpecISRC) = [candR] ∧
    (MatchTrack envOneCand none trackSpecISRC "lenient").result.MatchStatus
      = "NOT_FOUND" := by
  refine ⟨by decide, rfl, ?_⟩
  have hv : isValidISRC trackSpecISRC.ISRC = false := by decide
  have hpl := matchTrack_plain envOneCand none trackSpecISRC "lenient" rfl
    (by decide)
  have hb : bestOf envOneCand.sim
      (goToLower (trackSpecISRC.Artist ++ " " ++ trackSpecISRC.Title))
      (threshold "lenient") (isValidISRC trackSpecISRC.ISRC)
      (envOneCand.search (buildQuery trackSpecISRC)) = (none, 0) := by
    rw [hv]
    show List.foldl _ (none, 0) [candR] = (none, 0)
    rw [List.foldl_cons, List.foldl_nil]
    unfold stepCand candScore
    rw [if_neg]
    norm_num [envOneCand, threshold]
  rw [hpl, searchPhase_notFound envOneCand trackSpecISRC "lenient" 0 hb]

/-- Claim C4: confirmed — on the fuzzy path (no valid ISRC) the resolver
reports FOUND exactly when some candidate's similarity between the
lower-cased query pair reaches the mode's threshold (0.95 strict, 0.85
lenient); in particular a 0.85-scoring candidate is accepted in lenient
mode and rejected in strict mode, and a 0.94-scoring candidate is rejected
in strict mode (the maximum-scoring candidate included). -/
theorem C4_threshold_boundary :
    (∀ (env : MatchEnv) (t : Track) (mode : String),
      isValidISRC t.ISRC = false →
      ¬(t.SourceType = "youtube" ∧ t.ISRC = "") →
      env.search (buildQuery t) ≠ [] →
      ((MatchTrack env none t mode).result.MatchStatus = "FOUND" ↔
        ∃ c ∈ env.search (buildQuery t),
          threshold mode ≤ env.sim (goToLower (t.Artist ++ " " ++ t.Title))
            (goToLower (c.Artist ++ " " ++ c.Title)))) ∧
    (MatchTrack envSim085 none trackFuzzy "lenient").result.MatchStatus
      = "FOUND" ∧
    (MatchTrack envSim085 none trackFuzzy "strict").result.MatchStatus
      = "NOT_FOUND" ∧
    (MatchTrack envSim094 none trackFuzzy "strict").result.MatchStatus
      = "NOT_FOUND" := by
  have main : ∀ (env : MatchEnv) (t : Track) (mode : String),
      isValidISRC t.ISRC = false →
      ¬(t.SourceType = "youtube" ∧ t.ISRC = "") →
      env.search (buildQuery t) ≠ [] →
      ((MatchTrack env none t mode).result.MatchStatus = "FOUND" ↔
        ∃ c ∈ env.search (buildQuery t),
          threshold mode ≤ env.sim (goToLower (t.Artist ++ " " ++ t.Title))
            (goToLower (c.Artist ++ " " ++ c.Title))) := by
    intro env t mode h1 h2 hne
    rw [matchTrack_plain env none t mode rfl h2]
    rw [searchPhase_found_iff env t mode hne]
    rw [bestOf_isSome_iff env.sim (goToLower (t.Artist ++ " " ++ t.Title))
      (threshold mode) (isValidISRC t.ISRC) (env.search (buildQuery t))
      (threshold_pos mode)]
    simp only [candScore, h1, Bool.false_eq_true, if_false]
  refine ⟨main, ?_, ?_, ?_⟩
  · exact (main envSim085 trackFuzzy "lenient" (by decide) (by decide)
      (by decide)).mpr
      ⟨candR, by decide, by rw [threshold_lenient]; exact le_refl 0.85⟩
  · rcases matchTrack_status envSim085 none trackFuzzy "strict" with hF | hNF
    · exfalso
      obtain ⟨c, hc, hle⟩ := (main envSim085 trackFuzzy "strict" (by decide)
        (by decide) (by decide)).mp hF
      have hle2 : threshold "strict" ≤ (0.85 : ℚ) := hle
      rw [threshold_strict] at hle2
      norm_num at hle2
    · exact hNF
  · rcases matchTrack_status envSim094 none trackFuzzy "strict" with hF | hNF
    · exfalso
      obtain ⟨c, hc, hle⟩ := (main envSim094 trackFuzzy "strict" (by decide)
        (by decide) (by decide)).mp hF
      have hle2 : threshold "strict" ≤ (0.94 : ℚ) := hle
      rw [threshold_strict] at hle2
      norm_num at hle2
    · exact hNF

/-- Claim C4, witness: a single candidate scoring exactly 0.85 is accepted
in lenient mode, by the iff of `C4_threshold_boundary` with its hypotheses
discharged on concrete inputs. -/
theorem C4_threshold_boundary_witness :
    (MatchTrack envSim085 none trackFuzzy "lenient").result.MatchStatus
      = "FOUND" :=
  (C4_threshold_boundary.1 envSim085 trackFuzzy "lenient" (by decide)
    (by decide) (by decide)).mpr
    ⟨candR, by decide, by rw [threshold_lenient]; exact le_refl 0.85⟩

/-- Claim C5 (amended): the fuzzy search issues exactly one search call,
with the query `TrimSpace(artist + " " + title)` built from the raw,
uncleaned title; there is no bracket-stripping and no second attempt —
zero results on that single call immediately yield NOT_FOUND. -/
theorem C5_fallback_retry (env : MatchEnv) (t : Track) (mode : String)
    (h1 : isValidISRC t.ISRC = false)
    (h2 : ¬(t.SourceType = "youtube" ∧ t.ISRC = ""))
    (h3 : env.search (goTrimSpace (t.Artist ++ " " ++ t.Title)) = []) :
    MatchTrack env none t mode =
      ⟨{ Track := t, MatchStatus := "NOT_FOUND" },
       [NetCall.search (goTrimSpace (t.Artist ++ " " ++ t.Title))], none⟩ := by
  have hq : buildQuery t = goTrimSpace (t.Artist ++ " " ++ t.Title) := by
    unfold buildQuery
    rw [h1]
    simp
  rw [matchTrack_plain env none t mode rfl h2]
  have he := searchPhase_empty env t mode (by rw [hq]; exact h3)
  rw [he, hq]

/-- Claim C5, witness: `C5_fallback_retry` at the "(Remastered)" descriptor
with an always-empty search stub: one call, raw title, NOT_FOUND. -/
theorem C5_fallback_retry_witness :
    MatchTrack envEmpty none trackRemaster "strict" =
      ⟨{ Track := trackRemaster, MatchStatus := "NOT_FOUND" },
       [NetCall.search
          (goTrimSpace (trackRemaster.Artist ++ " " ++ trackRemaster.Title))],
       none⟩ :=
  C5_fallback_retry envEmpty trackRemaster "strict" (by decide) (by decide) rfl

/-- Claim C5, counterexample: resolving "The Weeknd - Blinding Lights
(Remastered)" against an empty catalog issues exactly ONE search call,
whose query still contains the parenthetical suffix, and returns NOT_FOUND
without any cleaned-title or retry attempt — the claimed clean query and
second uncleaned-title attempt do not exist in the code. -/
theorem C5_fallback_retry_cex :
    MatchTrack envEmpty none trackRemaster "lenient" =
      ⟨{ Track := trackRemaster, MatchStatus := "NOT_FOUND" },
       [NetCall.search "The Weeknd Blinding Lights (Remastered)"], none⟩ := by
  decide

/-- Claim C6: confirmed — `Search` returns the primary (Qobuz) catalog's
candidates whenever that call succeeds with at least one result, and
queries the secondary (DAB) catalog if and only if the primary call errors
or returns zero results (in which case the DAB results are returned). -/
theorem C6_primary_fallback (searchQobuz : String → Except Unit (List DabTrack))
    (searchDab : String → List DabTrack) (query : String) :
    (∀ qTracks, searchQobuz query = .ok qTracks → qTracks ≠ [] →
      ClientSearch searchQobuz searchDab query = (qTracks, false)) ∧
    ((ClientSearch searchQobuz searchDab query).2 = true ↔
      searchQobuz query = .ok [] ∨ searchQobuz query = .error ()) ∧
    ((ClientSearch searchQobuz searchDab query).2 = true →
      (ClientSearch searchQobuz searchDab query).1 = searchDab query) := by
  unfold ClientSearch
  cases hq : searchQobuz query with
  | error e =>
    cases e
    simp
  | ok ts =>
    cases ts with
    | nil => simp
    | cons a l => simp

/-- Claim C6, witness: a succeeding primary catalog with one result is
returned directly and the secondary catalog flag stays false. -/
theorem C6_primary_fallback_witness :
    ClientSearch (fun _ => Except.ok [candR]) (fun _ => []) "q"
      = ([candR], false) :=
  (C6_primary_fallback (fun _ => Except.ok [candR]) (fun _ => []) "q").1
    [candR] rfl (by decide)

/-- Claim C7: the code contradicts the claimed best-quality selection.  On
an exact-ISRC query returning a 44.1kHz/16bit candidate (id 1) before a
192kHz/24bit candidate (id 2), `MatchTrack` selects id 1 — every candidate
on the ISRC path scores 1.0 and the loop keeps the first maximum — while
`findBestQuality`, which implements the claimed (samplingRate, bitDepth)
lexicographic maximum and would pick id 2, is defined in matcher.go but
never called. -/
theorem C7_best_quality_unused :
    (MatchTrack envQuality none trackValidISRC "lenient").result.DabTrackID
      = some "1" ∧
    (MatchTrack envQuality none trackValidISRC "lenient").result.RawTrack
      = some candLow ∧
    findBestQuality [candLow, candHigh] = some candHigh := by
  have hv : isValidISRC trackValidISRC.ISRC = true := by decide
  have hpl := matchTrack_plain envQuality none trackValidISRC "lenient" rfl
    (by decide)
  have hres : envQuality.search (buildQuery trackValidISRC)
      = [candLow, candHigh] := rfl
  have hb : bestOf envQuality.sim
      (goToLower (trackValidISRC.Artist ++ " " ++ trackValidISRC.Title))
      (threshold "lenient") (isValidISRC trackValidISRC.ISRC)
      (envQuality.search (buildQuery trackValidISRC))
      = (some candLow, 1) := by
    rw [hres, hv]
    exact bestOf_isrc envQuality.sim _ "lenient" candLow [candHigh]
  have hf := searchPhase_found envQuality trackValidISRC "lenient" candLow 1
    (by rw [hres]; simp) hb
  rw [hpl, hf]
  refine ⟨by decide, rfl, ?_⟩
  norm_num [findBestQuality, betterQuality, candLow, candHigh]

/-- Claim C8: confirmed — `MatchTrack` is total and only ever reports FOUND
or NOT_FOUND, for every registry state (including an unavailable `nil` db,
which behaves exactly like an empty registry: every cache lookup degrades to
a miss) and for every behavior of the injected search, enrichment and
similarity collaborators (whose failures the clients collapse to empty
results before the resolver sees them). -/
theorem C8_no_error_propagation (env : MatchEnv) (db : Option Registry)
    (t : Track) (mode : String) :
    ((MatchTrack env db t mode).result.MatchStatus = "FOUND" ∨
      (MatchTrack env db t mode).result.MatchStatus = "NOT_FOUND") ∧
    MatchTrack env none t mode = MatchTrack env (some []) t mode :=
  ⟨matchTrack_status env db t mode, matchTrack_noDb env t mode⟩

/-- Claim C9 (amended): `GetISRCFromMetadata` never raises — any network,
status or decode error yields "" — and on a decoded response it scans all
recordings in list order and returns exactly the first ISRC (`headD`) of
the FIRST recording (`List.find?`) whose score exceeds 80 and which carries
at least one ISRC, "" when none qualifies; explicitly, when a rejected
prefix is followed by a qualifying recording, that recording's first ISRC
is returned whatever follows it — not only the top result as the claim
states. -/
theorem C9_enrichment_scan :
    GetISRCFromMetadata (Except.error ()) = "" ∧
    (∀ recs : List MBRecording,
      GetISRCFromMetadata (Except.ok ⟨recs⟩) =
        match recs.find?
            (fun r => decide (80 < r.score) && decide (0 < r.isrcs.length)) with
        | some r => r.isrcs.headD ""
        | none => "") ∧
    (∀ (pre : List MBRecording) (r : MBRecording) (post : List MBRecording),
      (∀ d ∈ pre, ¬(80 < d.score ∧ d.isrcs ≠ [])) →
      80 < r.score → r.isrcs ≠ [] →
      GetISRCFromMetadata (Except.ok ⟨pre ++ r :: post⟩) = r.isrcs.headD "") :=
  ⟨rfl,
   fun recs => firstAcceptedISRC_eq_find recs,
   fun pre r post hpre hr1 hr2 => firstAcceptedISRC_first pre r post hpre hr1 hr2⟩

/-- Claim C9, witness: `C9_enrichment_scan` applied to a rejected top
recording followed by a qualifying one returns the latter's first ISRC. -/
theorem C9_enrichment_scan_witness :
    GetISRCFromMetadata (Except.ok ⟨[recLowScore] ++ recHighScore :: []⟩)
      = recHighScore.isrcs.headD "" :=
  C9_enrichment_scan.2.2 [recLowScore] recHighScore [] (by decide) (by decide)
    (by decide)

/-- Claim C9, counterexample to "top result only": with a top recording
scoring 10 and carrying no ISRC, followed by a recording scoring 90 with an
ISRC, the function returns that second recording's ISRC instead of the
empty string the claim requires. -/
theorem C9_enrichment_scan_cex :
    GetISRCFromMetadata (Except.ok ⟨[recLowScore, recHighScore]⟩)
      = "QMABC2512345" ∧
    recLowScore.score = 10 ∧ recLowScore.isrcs = [] := by
  decide

/-- Claim C10: confirmed — the matcher's upserts store empty strings (not
NULL) in the platform-id columns that do not apply to the resolved
descriptor, and `GetDabIDFromSource` does not reject an empty source id, so
after a YouTube-sourced upsert a lookup keyed "spotify" (or "isrc") with
the empty string matches the row's empty column and returns its DAB id. -/
theorem C10_empty_key_lookup :
    UpsertMapping (some []) ⟨"77", "", "", "YT1"⟩ 0 =
      some [⟨"77", some "", some "", some "YT1", 0⟩] ∧
    GetDabIDFromSource (UpsertMapping (some []) ⟨"77", "", "", "YT1"⟩ 0)
      "spotify" "" = Except.ok "77" ∧
    GetDabIDFromSource (UpsertMapping (some []) ⟨"77", "", "", "YT1"⟩ 0)
      "isrc" "" = Except.ok "77" :=
  ⟨rfl, rfl, rfl⟩

end DBH
